import Mathlib

/-!
# Verification of the e-puck image-streaming core (`src/main.c`)

Shallow embedding of the image-acquisition / acknowledgement-gated
streaming pipeline of `src/main.c`: the transmission FSM
(`switch (tx_state)`, lines 235-331), the camera FSM
(`switch (img_state)`, lines 335-370) and the shared buffer pool
`img_bufs[2]`, stepped once per tick of the main `while (1)` loop.

The motion FSM and the proximity-LED code of the same loop read and
write only their own state (`move_state`, motor speeds, LEDs) and never
touch `tx_state`, `img_state`, `ack`, `act_tx_buf`, `act_img_buf` or
`img_bufs`; they are omitted from the embedding, which models exactly
the shared state the two sensing FSMs use.

External devices (UART, camera, selector switch) are modelled as an
environment record sampled once per tick; calls into them
(`e_send_uart1_char`, `e_getchar_uart1`, `e_poxxxx_launch_capture`)
are recorded as an event list emitted by each step.
-/

set_option autoImplicit false

namespace Puck

/-- The states of the transmission FSM (`enum TRANSMISSION_STATES`). -/
inductive TxState where
  | TX_INIT
  | TX_CONFIG
  | TX_CONFIG_ACK
  | TX_VISUAL
  | TX_VISUAL_ACK
  | TX_VISUAL_SENT
deriving DecidableEq, Repr

/-- The states of the camera FSM (`enum CAMERA_STATES`). -/
inductive CamState where
  | CAM_INACTIVE
  | CAM_IDLE
  | CAM_CAPTURING
deriving DecidableEq, Repr

/-- `SEL_SENSING` bit of `enum PROGRAM_SELECTIONS`: bit 1 of the selector. -/
def SEL_SENSING : Nat := 2

/-- `IMG_H` from `configuration.h`. -/
def IMG_H : Nat := 25

/-- `IMG_W` from `configuration.h`. -/
def IMG_W : Nat := 64

/-- `IMG_DATA_SIZE = IMG_H * IMG_W` from `main.c`. -/
def IMG_DATA_SIZE : Nat := IMG_H * IMG_W

/-- Modelled from the spec: `PMT_ACK`, the ACK sentinel byte, comes from
the protocol header `pucom.h` which is not part of `src/`.  The spec
describes it as a fixed single-byte sentinel distinct from the "empty"
register value `0` (the code resets the register with `ack = 0` and then
waits for `ack == PMT_ACK`, so the two must differ for the protocol to
function).  We fix it to the ASCII ACK value; no theorem below depends
on the exact choice, only on it being a byte other than `0`. -/
def PMT_ACK : Nat := 6

/-- Modelled from the spec: `PMT_CONFIG` message-type discriminant from
`pucom.h` (not in `src/`); a fixed value distinct from `PMT_VISUAL`. -/
def PMT_CONFIG : Nat := 1

/-- Modelled from the spec: `PMT_VISUAL` message-type discriminant from
`pucom.h` (not in `src/`); a fixed value distinct from `PMT_CONFIG`. -/
def PMT_VISUAL : Nat := 2

/-- Modelled from the spec: `sizeof(struct puck_msg_config)` from
`pucom.h` (not in `src/`); spec §8 scenario 3 gives `len=8`. -/
def MSG_CONFIG_SIZE : Nat := 8

/-- Observable actions of one FSM step: the calls made into the UART and
camera drivers.  `sendVisualHdr i` / `sendVisualPayload i` additionally
record the buffer slot the header/payload is for (in the code this is
the slot stored into `act_tx_buf` next to the `e_send_uart1_char` call,
resp. the current `act_tx_buf`); `launchCapture i` records the slot
whose `data` array is handed to `e_poxxxx_launch_capture`. -/
inductive Ev where
  /-- `e_send_uart1_char(&msg_hdr, ...)` with `msg_hdr = {PMT_CONFIG, sizeof(msg_config)}`. -/
  | sendConfigHdr
  /-- `e_send_uart1_char(&msg_config, ...)` with `msg_config = {IMG_W, IMG_H}`. -/
  | sendConfigPayload
  /-- `e_send_uart1_char(&msg_hdr, ...)` with `msg_hdr = {PMT_VISUAL, IMG_DATA_SIZE}`, selecting slot `i`. -/
  | sendVisualHdr (i : Nat)
  /-- `e_send_uart1_char(img_bufs[i].data, IMG_DATA_SIZE)`. -/
  | sendVisualPayload (i : Nat)
  /-- `e_getchar_uart1((char *)&ack)` delivering byte `b`. -/
  | readByte (b : Nat)
  /-- `e_poxxxx_launch_capture(img_bufs[i].data)`. -/
  | launchCapture (i : Nat)
deriving DecidableEq, Repr

/-- The externals sampled during one pass of the main loop: the selector
(`get_selector()`), the UART status (`e_uart1_sending()`,
`e_ischar_uart1()`), the byte `e_getchar_uart1` would deliver, and the
camera status (`e_poxxxx_is_img_ready()`). -/
structure Env where
  sel : Nat
  sending : Bool
  hasChar : Bool
  rx : Nat
  imgReady : Bool
deriving DecidableEq, Repr

/-- The shared mutable state of the two sensing FSMs: `tx_state`,
`img_state`, the active buffer indices `act_tx_buf` / `act_img_buf`
(C `unsigned char`), the acknowledgement register `ack`
(C `unsigned char`), and the two `data_is_new` flags of `img_bufs[2]`
(C `uint8_t`, only ever assigned `0` or `1`). -/
structure Sys where
  tx_state : TxState
  img_state : CamState
  act_tx_buf : Nat
  act_img_buf : Nat
  ack : Nat
  buf0_new : Nat
  buf1_new : Nat
deriving DecidableEq, Repr

/-- `img_bufs[i].data_is_new`.  The out-of-range default `0` is never
consulted on reachable states (the active indices stay in `{0, 1}`). -/
def bufNew (s : Sys) : Nat → Nat
  | 0 => s.buf0_new
  | 1 => s.buf1_new
  | _ => 0

/-- `img_bufs[i].data_is_new = v`.  Out of range, a no-op (never
reached on reachable states). -/
def setBufNew (s : Sys) (i v : Nat) : Sys :=
  match i with
  | 0 => { s with buf0_new := v }
  | 1 => { s with buf1_new := v }
  | _ => s

/-- State after `main`'s initialization: both `data_is_new` flags `0`,
`tx_state = TX_INIT`, `img_state = CAM_INACTIVE`, the index and ack
scalars `0` (`unsigned char act_tx_buf = 0, act_img_buf = 0, ack = 0`). -/
def Sys.init : Sys :=
  { tx_state := .TX_INIT
    img_state := .CAM_INACTIVE
    act_tx_buf := 0
    act_img_buf := 0
    ack := 0
    buf0_new := 0
    buf1_new := 0 }

/-- One step of the transmission FSM: the `switch (tx_state)` at
`main.c:235-331`, transcribed case by case and branch by branch. -/
def txStep (e : Env) (s : Sys) : Sys × List Ev :=
  match s.tx_state with
  | .TX_INIT =>
      -- if ((sel & SEL_SENSING)) tx_state = TX_CONFIG;
      if e.sel &&& SEL_SENSING ≠ 0 then
        ({ s with tx_state := .TX_CONFIG }, [])
      else (s, [])
  | .TX_CONFIG =>
      if e.sel &&& SEL_SENSING = 0 then
        ({ s with tx_state := .TX_INIT }, [])
      -- else if ((sel & SEL_SENSING) && !e_uart1_sending())
      else if e.sel &&& SEL_SENSING ≠ 0 ∧ e.sending = false then
        ({ s with tx_state := .TX_CONFIG_ACK }, [.sendConfigHdr])
      else (s, [])
  | .TX_CONFIG_ACK =>
      if e.sel &&& SEL_SENSING = 0 then
        ({ s with tx_state := .TX_INIT }, [])
      -- else if (e_ischar_uart1() && (ack != PMT_ACK)) e_getchar_uart1(&ack);
      else if e.hasChar = true ∧ s.ack ≠ PMT_ACK then
        ({ s with ack := e.rx % 256 }, [.readByte (e.rx % 256)])
      -- else if (!e_uart1_sending() && (ack == PMT_ACK)) send config payload
      else if e.sending = false ∧ s.ack = PMT_ACK then
        ({ s with tx_state := .TX_VISUAL }, [.sendConfigPayload])
      else (s, [])
  | .TX_VISUAL =>
      if e.sel &&& SEL_SENSING = 0 then
        ({ s with tx_state := .TX_INIT }, [])
      -- else if ((img_bufs[0].data_is_new == 1) && !e_uart1_sending())
      else if s.buf0_new = 1 ∧ e.sending = false then
        ({ s with act_tx_buf := 0, tx_state := .TX_VISUAL_ACK }, [.sendVisualHdr 0])
      -- else if ((img_bufs[1].data_is_new == 1) && !e_uart1_sending())
      else if s.buf1_new = 1 ∧ e.sending = false then
        ({ s with act_tx_buf := 1, tx_state := .TX_VISUAL_ACK }, [.sendVisualHdr 1])
      else (s, [])
  | .TX_VISUAL_ACK =>
      if e.sel &&& SEL_SENSING = 0 then
        ({ s with tx_state := .TX_INIT }, [])
      else if e.hasChar = true ∧ s.ack ≠ PMT_ACK then
        ({ s with ack := e.rx % 256 }, [.readByte (e.rx % 256)])
      -- else if (!e_uart1_sending() && (ack == PMT_ACK)) send payload; ack = 0;
      else if e.sending = false ∧ s.ack = PMT_ACK then
        ({ s with ack := 0, tx_state := .TX_VISUAL_SENT },
          [.sendVisualPayload s.act_tx_buf])
      else (s, [])
  | .TX_VISUAL_SENT =>
      -- NOTE: this case has no (sel & SEL_SENSING) check in the source.
      -- if (!e_uart1_sending()) { img_bufs[act_tx_buf].data_is_new = 0; ... }
      if e.sending = false then
        ({ setBufNew s s.act_tx_buf 0 with tx_state := .TX_VISUAL }, [])
      else (s, [])

/-- One step of the camera FSM: the `switch (img_state)` at
`main.c:335-370` (the `DBG_INCLUDE_CAM == 1` branch, which is the one
selected by `configuration.h`). -/
def camStep (e : Env) (s : Sys) : Sys × List Ev :=
  match s.img_state with
  | .CAM_INACTIVE =>
      if e.sel &&& SEL_SENSING ≠ 0 then
        ({ s with img_state := .CAM_IDLE }, [])
      else (s, [])
  | .CAM_IDLE =>
      if e.sel &&& SEL_SENSING = 0 then
        ({ s with img_state := .CAM_INACTIVE }, [])
      -- else if (img_bufs[0].data_is_new == 0) launch capture into slot 0
      else if s.buf0_new = 0 then
        ({ s with act_img_buf := 0, img_state := .CAM_CAPTURING }, [.launchCapture 0])
      else if s.buf1_new = 0 then
        ({ s with act_img_buf := 1, img_state := .CAM_CAPTURING }, [.launchCapture 1])
      else (s, [])
  | .CAM_CAPTURING =>
      if e.sel &&& SEL_SENSING = 0 then
        ({ s with img_state := .CAM_INACTIVE }, [])
      -- else if (e_poxxxx_is_img_ready()) mark the buffer as used
      else if e.imgReady = true then
        ({ setBufNew s s.act_img_buf 1 with img_state := .CAM_IDLE }, [])
      else (s, [])

/-- One tick of the main loop, restricted to the sensing pipeline: the
transmission FSM is stepped first, then the camera FSM, both on the
selector value sampled at the top of the loop; the event list records
the driver calls in program order. -/
def tick (e : Env) (s : Sys) : Sys × List Ev :=
  let t := txStep e s
  let c := camStep e t.1
  (c.1, t.2 ++ c.2)

/-- The state after running the loop over a list of per-tick
environments. -/
def run : List Env → Sys → Sys
  | [], s => s
  | e :: es, s => run es (tick e s).1

/-- The events emitted while running the loop over a list of per-tick
environments. -/
def runEvs : List Env → Sys → List Ev
  | [], _ => []
  | e :: es, s => (tick e s).2 ++ runEvs es (tick e s).1

/-- States reachable from `Sys.init` by ticks of the main loop under an
arbitrary environment. -/
inductive Reachable : Sys → Prop where
  | init : Reachable Sys.init
  | step {s : Sys} (e : Env) : Reachable s → Reachable (tick e s).1

def Inv (s : Sys) : Prop :=
  s.act_tx_buf ≤ 1 ∧ s.act_img_buf ≤ 1
  ∧ (s.img_state = .CAM_CAPTURING → bufNew s s.act_img_buf = 0)
  ∧ ((s.tx_state = .TX_VISUAL_ACK ∨ s.tx_state = .TX_VISUAL_SENT) → bufNew s s.act_tx_buf = 1)

/-- The bytes consumed from the UART during a step
(`e_getchar_uart1` calls, in order). -/
def readEvents (evs : List Ev) : List Nat :=
  evs.filterMap fun ev =>
    match ev with
    | .readByte b => some b
    | _ => none

/-- The capture launches performed during a step
(`e_poxxxx_launch_capture` calls, by slot, in order). -/
def captureEvents (evs : List Ev) : List Nat :=
  evs.filterMap fun ev =>
    match ev with
    | .launchCapture i => some i
    | _ => none

/-- The visual-send loop of the transmission FSM: the three states the
FSM cycles through after the configuration handshake. -/
def visualLoop (t : TxState) : Prop :=
  t = .TX_VISUAL ∨ t = .TX_VISUAL_ACK ∨ t = .TX_VISUAL_SENT

/-- Tick environment: sensing enabled, UART idle, no byte pending,
image not ready. -/
def envOn : Env := { sel := 2, sending := false, hasChar := false, rx := 0, imgReady := false }

/-- Sensing enabled, ACK sentinel byte waiting on the UART, image ready. -/
def envOnAckReady : Env := { envOn with hasChar := true, rx := 6, imgReady := true }

/-- Sensing enabled, image ready. -/
def envOnReady : Env := { envOn with imgReady := true }

/-- Sensing enabled, UART busy sending. -/
def envOnBusy : Env := { envOn with sending := true }

/-- Sensing enabled, UART busy, image ready. -/
def envOnBusyReady : Env := { envOnBusy with imgReady := true }

/-- Sensing enabled, stray byte `5` waiting on the UART. -/
def envOnByte5 : Env := { envOn with hasChar := true, rx := 5 }

/-- Sensing enabled, stray byte `7` waiting on the UART. -/
def envOnByte7 : Env := { envOn with hasChar := true, rx := 7 }

/-- Sensing disabled, UART idle. -/
def envOff : Env := { envOn with sel := 0 }

/-- Sensing disabled, UART busy sending. -/
def envOffBusy : Env := { envOff with sending := true }

/-- Five ticks that drive the system from startup through the config
handshake into `TX_VISUAL_ACK` for slot 0, with both buffers captured
(`data_is_new = 1`) and the camera back in `CAM_IDLE`. -/
def toVisualAck : List Env := [envOn, envOn, envOnAckReady, envOn, envOnReady]

/-- One more idle-channel tick: the leftover sentinel in the ack
register lets the visual payload go out at once, reaching
`TX_VISUAL_SENT` with both buffers still flagged new. -/
def toVisualSent : List Env := toVisualAck ++ [envOn]

/-- Four ticks to `TX_VISUAL` (config handshake just completed). -/
def toVisual : List Env := [envOn, envOn, envOnAckReady, envOn]

/-- Five ticks to `TX_VISUAL` with both buffers flagged new. -/
def toVisualBothReady : List Env := [envOn, envOn, envOnAckReady, envOn, envOnBusyReady]

/-- Five ticks to `TX_VISUAL_ACK` for slot 0 while the camera is still
in `CAM_CAPTURING` for slot 1. -/
def toAckWhileCapturing : List Env := [envOn, envOn, envOnAckReady, envOn, envOn]

/-- Three ticks leaving the FSM in `TX_CONFIG_ACK` with the stray byte
`5` latched in the ack register. -/
def toCfgAck5 : List Env := [envOn, envOn, envOnByte5]

/-- `toCfgAck5`, then disable for a tick and re-enable: the FSM re-runs
`TX_CONFIG` and re-enters `TX_CONFIG_ACK` with the stale `5` still in
the ack register. -/
def toCfgAckStale : List Env := toCfgAck5 ++ [envOff, envOn, envOn]

/-- Four enabled ticks used after a disable/re-enable to redo the
config handshake and reach the next visual header. -/
def resumeTicks : List Env := [envOn, envOn, envOn, envOn]

/-- Every state produced by a concrete run from `Sys.init` is reachable. -/
theorem reachable_run (es : List Env) : Reachable (run es Sys.init) := by
  suffices h : ∀ (es : List Env) (s : Sys), Reachable s → Reachable (run es s) from
    h es Sys.init Reachable.init
  intro es
  induction es with
  | nil => intro s hs; exact hs
  | cons e es ih => intro s hs; exact ih (tick e s).1 (Reachable.step e hs)

@[simp] theorem setBufNew_tx_state (s : Sys) (i v : Nat) :
    (setBufNew s i v).tx_state = s.tx_state := by
  unfold setBufNew; rcases i with _ | _ | i <;> rfl

@[simp] theorem setBufNew_img_state (s : Sys) (i v : Nat) :
    (setBufNew s i v).img_state = s.img_state := by
  unfold setBufNew; rcases i with _ | _ | i <;> rfl

@[simp] theorem setBufNew_act_tx (s : Sys) (i v : Nat) :
    (setBufNew s i v).act_tx_buf = s.act_tx_buf := by
  unfold setBufNew; rcases i with _ | _ | i <;> rfl

@[simp] theorem setBufNew_act_img (s : Sys) (i v : Nat) :
    (setBufNew s i v).act_img_buf = s.act_img_buf := by
  unfold setBufNew; rcases i with _ | _ | i <;> rfl

@[simp] theorem setBufNew_ack (s : Sys) (i v : Nat) :
    (setBufNew s i v).ack = s.ack := by
  unfold setBufNew; rcases i with _ | _ | i <;> rfl

theorem inv_txStep (e : Env) (s : Sys) (h : Inv s) : Inv (txStep e s).1 := by
  obtain ⟨h1, h2, h3, h4⟩ := h
  rcases Nat.le_one_iff_eq_zero_or_eq_one.mp h1 with ha | ha <;>
  rcases Nat.le_one_iff_eq_zero_or_eq_one.mp h2 with hb | hb <;>
  cases htx : s.tx_state <;>
  simp only [txStep, htx] <;> split_ifs <;>
  simp_all [Inv, bufNew, setBufNew]

theorem inv_camStep (e : Env) (s : Sys) (h : Inv s) : Inv (camStep e s).1 := by
  obtain ⟨h1, h2, h3, h4⟩ := h
  rcases Nat.le_one_iff_eq_zero_or_eq_one.mp h1 with ha | ha <;>
  rcases Nat.le_one_iff_eq_zero_or_eq_one.mp h2 with hb | hb <;>
  cases hcm : s.img_state <;>
  simp only [camStep, hcm] <;> split_ifs <;>
  simp_all [Inv, bufNew, setBufNew]

theorem tick_fst (e : Env) (s : Sys) : (tick e s).1 = (camStep e (txStep e s).1).1 := rfl

theorem tick_snd (e : Env) (s : Sys) :
    (tick e s).2 = (txStep e s).2 ++ (camStep e (txStep e s).1).2 := rfl

theorem inv_init : Inv Sys.init := by unfold Inv; decide

theorem inv_reachable {s : Sys} (h : Reachable s) : Inv s := by
  induction h with
  | init => exact inv_init
  | step e _ ih => exact inv_camStep _ _ (inv_txStep _ _ ih)

/-- `camStep` leaves the transmission FSM state unchanged. -/
@[simp] theorem camStep_tx_state (e : Env) (s : Sys) :
    (camStep e s).1.tx_state = s.tx_state := by
  cases hcm : s.img_state <;> simp only [camStep, hcm] <;> split_ifs <;> simp

/-- A capture is launched only from `CAM_IDLE`, only into a slot whose
`data_is_new` flag is `0`. -/
theorem launch_guard (e : Env) (s : Sys) (i : Nat)
    (h : Ev.launchCapture i ∈ (camStep e s).2) :
    bufNew s i = 0 ∧ s.img_state = .CAM_IDLE := by
  cases hcm : s.img_state <;> simp only [camStep, hcm] at h <;>
    split_ifs at h <;> simp_all [bufNew]

/-- A `PMT_VISUAL` header is sent only from `TX_VISUAL`, with the channel
idle, for a slot whose `data_is_new` flag is `1`. -/
theorem visualHdr_guard (e : Env) (s : Sys) (i : Nat)
    (h : Ev.sendVisualHdr i ∈ (txStep e s).2) :
    bufNew s i = 1 ∧ s.tx_state = .TX_VISUAL ∧ e.sending = false := by
  cases htx : s.tx_state <;> simp only [txStep, htx] at h <;>
    split_ifs at h <;> simp_all [bufNew]

/-- A visual payload is sent only from `TX_VISUAL_ACK`, for the slot
`act_tx_buf`, with the channel idle and the ack register holding the sentinel. -/
theorem visualPayload_src (e : Env) (s : Sys) (i : Nat)
    (h : Ev.sendVisualPayload i ∈ (txStep e s).2) :
    i = s.act_tx_buf ∧ s.tx_state = .TX_VISUAL_ACK ∧ e.sending = false ∧
      s.ack = PMT_ACK := by
  cases htx : s.tx_state <;> simp only [txStep, htx] at h <;>
    split_ifs at h <;> simp_all

/-- The config payload is sent only from `TX_CONFIG_ACK`, with the channel
idle and the ack register holding the sentinel; the step then moves to
`TX_VISUAL` and the event list is exactly that send. -/
theorem cfgPayload_src (e : Env) (s : Sys)
    (h : Ev.sendConfigPayload ∈ (txStep e s).2) :
    s.tx_state = .TX_CONFIG_ACK ∧ e.sending = false ∧ s.ack = PMT_ACK ∧
      (txStep e s).1.tx_state = .TX_VISUAL ∧ (txStep e s).2 = [.sendConfigPayload] := by
  cases htx : s.tx_state <;> simp only [txStep, htx] at h ⊢ <;>
    split_ifs at h <;> simp_all

/-- The transmission FSM lowers a `data_is_new` flag only in
`TX_VISUAL_SENT`, only once the channel has stopped sending, and only
for the active send slot `act_tx_buf`. -/
theorem txStep_flag_clear (e : Env) (s : Sys) (i : Nat)
    (h1 : bufNew s i = 1) (h2 : bufNew (txStep e s).1 i = 0) :
    s.tx_state = .TX_VISUAL_SENT ∧ e.sending = false ∧ i = s.act_tx_buf := by
  rcases i with _ | _ | i
  · cases htx : s.tx_state <;> simp only [txStep, htx] at h2 <;>
      split_ifs at h2 <;>
      rcases hact : s.act_tx_buf with _ | _ | j <;>
      simp_all [bufNew, setBufNew]
  · cases htx : s.tx_state <;> simp only [txStep, htx] at h2 <;>
      split_ifs at h2 <;>
      rcases hact : s.act_tx_buf with _ | _ | j <;>
      simp_all [bufNew, setBufNew]
  · simp [bufNew] at h1

/-- The camera FSM emits no UART sends: every event of `camStep` is a
capture launch. -/
theorem camStep_events (e : Env) (s : Sys) (ev : Ev)
    (h : ev ∈ (camStep e s).2) : ∃ i, ev = .launchCapture i := by
  cases hcm : s.img_state <;> simp only [camStep, hcm] at h <;>
    split_ifs at h <;> simp_all

/-- The transmission FSM launches no captures. -/
theorem txStep_no_capture (e : Env) (s : Sys) (i : Nat) :
    Ev.launchCapture i ∉ (txStep e s).2 := by
  intro h
  cases htx : s.tx_state <;> simp only [txStep, htx] at h <;>
    split_ifs at h <;> simp_all

/-- While the sensing bit stays set, a transmission FSM in the
visual-send loop stays in the visual-send loop and never sends a config
payload. -/
theorem visualLoop_absorb (e : Env) (s : Sys)
    (hsel : e.sel &&& SEL_SENSING ≠ 0) (h : visualLoop s.tx_state) :
    visualLoop (txStep e s).1.tx_state ∧ Ev.sendConfigPayload ∉ (txStep e s).2 := by
  rcases h with h | h | h <;>
    simp only [txStep, h] <;> split_ifs <;> simp_all [visualLoop]

/-- Counting config-payload sends over a run that starts in the
visual-send loop and is enabled throughout: none occur. -/
theorem cfg_count_zero (es : List Env) (s : Sys)
    (h : ∀ e ∈ es, e.sel &&& SEL_SENSING ≠ 0) (hv : visualLoop s.tx_state) :
    (runEvs es s).count Ev.sendConfigPayload = 0 := by
  induction es generalizing s with
  | nil => rfl
  | cons e es ih =>
    have he : e.sel &&& SEL_SENSING ≠ 0 := h e (List.mem_cons_self e es)
    have habs := visualLoop_absorb e s he hv
    have hstep : (runEvs (e :: es) s) = (tick e s).2 ++ runEvs es (tick e s).1 := rfl
    rw [hstep, List.count_append]
    have h1 : ((tick e s).2).count Ev.sendConfigPayload = 0 := by
      rw [List.count_eq_zero]
      intro hmem
      rw [tick_snd] at hmem
      rcases List.mem_append.mp hmem with hm | hm
      · exact habs.2 hm
      · obtain ⟨i, hi⟩ := camStep_events _ _ _ hm
        simp at hi
    have h2 : (runEvs es (tick e s).1).count Ev.sendConfigPayload = 0 := by
      apply ih
      · intro x hx; exact h x (List.mem_cons_of_mem e hx)
      · rw [tick_fst]
        have := habs.1
        simpa [visualLoop] using this
    omega

/-- Counting config-payload sends over any enabled run: at most one. -/
theorem cfg_count_le_one (es : List Env) (s : Sys)
    (h : ∀ e ∈ es, e.sel &&& SEL_SENSING ≠ 0) :
    (runEvs es s).count Ev.sendConfigPayload ≤ 1 := by
  induction es generalizing s with
  | nil => simp [runEvs]
  | cons e es ih =>
    have hstep : (runEvs (e :: es) s) = (tick e s).2 ++ runEvs es (tick e s).1 := rfl
    rw [hstep, List.count_append]
    have hrest : ∀ x ∈ es, x.sel &&& SEL_SENSING ≠ 0 :=
      fun x hx => h x (List.mem_cons_of_mem e hx)
    by_cases hmem : Ev.sendConfigPayload ∈ (tick e s).2
    · -- the payload goes out this tick; afterwards the FSM is in the
      -- visual loop, so no further payload is sent
      have hsrc : Ev.sendConfigPayload ∈ (txStep e s).2 := by
        rw [tick_snd] at hmem
        rcases List.mem_append.mp hmem with hm | hm
        · exact hm
        · obtain ⟨i, hi⟩ := camStep_events _ _ _ hm
          simp at hi
      obtain ⟨-, -, -, hnext, hevs⟩ := cfgPayload_src e s hsrc
      have hcnt1 : ((tick e s).2).count Ev.sendConfigPayload = 1 := by
        rw [tick_snd, List.count_append, hevs]
        have : ((camStep e (txStep e s).1).2).count Ev.sendConfigPayload = 0 := by
          rw [List.count_eq_zero]
          intro hm
          obtain ⟨i, hi⟩ := camStep_events _ _ _ hm
          simp at hi
        simp [this]
      have hcnt2 : (runEvs es (tick e s).1).count Ev.sendConfigPayload = 0 := by
        apply cfg_count_zero es _ hrest
        rw [tick_fst, camStep_tx_state]
        exact Or.inl hnext
      omega
    · have hcnt1 : ((tick e s).2).count Ev.sendConfigPayload = 0 :=
        List.count_eq_zero.mpr hmem
      have := ih (tick e s).1 hrest
      omega

/-- The transmission FSM leaves the camera FSM state unchanged. -/
@[simp] theorem txStep_img_state (e : Env) (s : Sys) :
    (txStep e s).1.img_state = s.img_state := by
  cases htx : s.tx_state <;> simp only [txStep, htx] <;> split_ifs <;> simp

/-- The transmission FSM leaves `act_img_buf` unchanged. -/
@[simp] theorem txStep_act_img (e : Env) (s : Sys) :
    (txStep e s).1.act_img_buf = s.act_img_buf := by
  cases htx : s.tx_state <;> simp only [txStep, htx] <;> split_ifs <;> simp

/-- A transmission step leaves each `data_is_new` flag unchanged or
clears it to `0`. -/
theorem txStep_flag_cases (e : Env) (s : Sys) (i : Nat) :
    bufNew (txStep e s).1 i = bufNew s i ∨ bufNew (txStep e s).1 i = 0 := by
  rcases i with _ | _ | i
  · cases htx : s.tx_state <;> simp only [txStep, htx] <;> split_ifs <;>
      rcases hact : s.act_tx_buf with _ | _ | j <;>
      simp_all [bufNew, setBufNew]
  · cases htx : s.tx_state <;> simp only [txStep, htx] <;> split_ifs <;>
      rcases hact : s.act_tx_buf with _ | _ | j <;>
      simp_all [bufNew, setBufNew]
  · simp [bufNew]

/-- A camera step leaves each `data_is_new` flag unchanged or raises it
to `1`. -/
theorem camStep_flag_cases (e : Env) (s : Sys) (i : Nat) :
    bufNew (camStep e s).1 i = bufNew s i ∨ bufNew (camStep e s).1 i = 1 := by
  rcases i with _ | _ | i
  · cases hcm : s.img_state <;> simp only [camStep, hcm] <;> split_ifs <;>
      rcases hact : s.act_img_buf with _ | _ | j <;>
      simp_all [bufNew, setBufNew]
  · cases hcm : s.img_state <;> simp only [camStep, hcm] <;> split_ifs <;>
      rcases hact : s.act_img_buf with _ | _ | j <;>
      simp_all [bufNew, setBufNew]
  · simp [bufNew]

/-- With the sensing bit clear, a camera step goes to `CAM_INACTIVE`
and leaves the buffer flags untouched. -/
theorem camStep_disabled (e : Env) (s : Sys) (hsel : e.sel &&& SEL_SENSING = 0) :
    (camStep e s).1.img_state = .CAM_INACTIVE ∧
    (camStep e s).1.buf0_new = s.buf0_new ∧
    (camStep e s).1.buf1_new = s.buf1_new ∧
    (camStep e s).2 = [] := by
  cases hcm : s.img_state <;> simp only [camStep, hcm] <;> split_ifs <;> simp_all

/-- The transmission FSM performs no capture launches. -/
theorem captureEvents_txStep (e : Env) (s : Sys) :
    captureEvents (txStep e s).2 = [] := by
  rw [captureEvents, List.filterMap_eq_nil_iff]
  intro ev hev
  cases ev <;> simp_all
  case launchCapture i => exact txStep_no_capture e s i hev

/-- C1: for every reachable state, the capture FSM only launches a
capture into a buffer whose `data_is_new` flag is `0`; the transmission
FSM emits a `PMT_VISUAL` header only for a buffer whose flag is `1` and
a visual payload only for a buffer whose flag is `1`; a flag is lowered
during a tick only from `TX_VISUAL_SENT`, once the channel has stopped
sending, and only for the active send slot; and while the camera is
capturing, the buffer it writes into is not flagged new — so a ready
buffer is never overwritten by capture before transmission clears it. -/
theorem c1_buffer_handoff_discipline (s : Sys) (hs : Reachable s) (e : Env) :
    (∀ i, Ev.launchCapture i ∈ (camStep e s).2 → bufNew s i = 0) ∧
    (∀ i, Ev.sendVisualHdr i ∈ (txStep e s).2 → bufNew s i = 1) ∧
    (∀ i, Ev.sendVisualPayload i ∈ (txStep e s).2 → bufNew s i = 1) ∧
    (∀ i, bufNew s i = 1 → bufNew (tick e s).1 i = 0 →
      s.tx_state = .TX_VISUAL_SENT ∧ e.sending = false ∧ i = s.act_tx_buf) ∧
    (s.img_state = .CAM_CAPTURING → bufNew s s.act_img_buf = 0) := by
  obtain ⟨hb1, hb2, hcap, hsend⟩ := inv_reachable hs
  refine ⟨?_, ?_, ?_, ?_, hcap⟩
  · intro i hi
    exact (launch_guard e s i hi).1
  · intro i hi
    exact (visualHdr_guard e s i hi).1
  · intro i hi
    obtain ⟨hi', htx, -, -⟩ := visualPayload_src e s i hi
    rw [hi']
    exact hsend (Or.inl htx)
  · intro i h1 h2
    rw [tick_fst] at h2
    rcases camStep_flag_cases e (txStep e s).1 i with hc | hc
    · rw [hc] at h2
      exact txStep_flag_clear e s i h1 h2
    · rw [hc] at h2
      exact absurd h2 (by decide)

/-- Witness for C1 at the reachable state five ticks in: the visual
payload for slot 0 does go out there, and slot 0 is indeed flagged new. -/
theorem c1_buffer_handoff_discipline_witness :
    Ev.sendVisualPayload 0 ∈ (txStep envOn (run toVisualAck Sys.init)).2 ∧
    bufNew (run toVisualAck Sys.init) 0 = 1 :=
  ⟨by decide,
    (c1_buffer_handoff_discipline (run toVisualAck Sys.init)
      (reachable_run toVisualAck) envOn).2.2.1 0 (by decide)⟩

/-- C2 counterexample: in the reachable state `TX_VISUAL_SENT` (both
buffers new), disabling sensing does not drive the FSM to `TX_INIT` on
the next tick: with the channel still sending it stays in
`TX_VISUAL_SENT`, and with the channel idle it moves to `TX_VISUAL` —
the `TX_VISUAL_SENT` case of the source has no sensing check. -/
theorem c2_disable_counterexample :
    (run toVisualSent Sys.init).tx_state = .TX_VISUAL_SENT ∧
    envOffBusy.sel &&& SEL_SENSING = 0 ∧
    (tick envOffBusy (run toVisualSent Sys.init)).1.tx_state = .TX_VISUAL_SENT ∧
    (tick envOffBusy (run toVisualSent Sys.init)).1.tx_state ≠ .TX_INIT ∧
    envOff.sel &&& SEL_SENSING = 0 ∧
    (tick envOff (run toVisualSent Sys.init)).1.tx_state = .TX_VISUAL ∧
    (tick envOff (run toVisualSent Sys.init)).1.tx_state ≠ .TX_INIT := by decide

/-- C2 (amended): if the sensing bit is clear at the start of a tick,
the transmission FSM is in `TX_INIT` after that tick from every state
except `TX_VISUAL_SENT`; the wait-for-send-complete state ignores the
sensing bit and reacts to it only one tick later, via `TX_VISUAL`. -/
theorem c2_disable_resets_next_tick (s : Sys) (e : Env)
    (hsel : e.sel &&& SEL_SENSING = 0) (hst : s.tx_state ≠ .TX_VISUAL_SENT) :
    (tick e s).1.tx_state = .TX_INIT := by
  rw [tick_fst, camStep_tx_state]
  cases htx : s.tx_state <;> simp only [txStep, htx] <;> split_ifs <;> simp_all

/-- Witness for C2 (amended) from the reachable `TX_VISUAL_ACK` state. -/
theorem c2_disable_resets_next_tick_witness :
    (tick envOff (run toVisualAck Sys.init)).1.tx_state = .TX_INIT :=
  c2_disable_resets_next_tick (run toVisualAck Sys.init) envOff (by decide) (by decide)

/-- C3 counterexample: after the config handshake, the transition from
`TX_VISUAL` into `TX_VISUAL_ACK` happens with the ack register still
holding the sentinel consumed during the config phase (nonzero, hence
not empty); and after a disable/re-enable mid-handshake, `TX_CONFIG_ACK`
is re-entered with a stale stray byte `5` still latched.  The register
is not reset at the start of either ack-wait phase. -/
theorem c3_ack_not_reset_counterexample :
    (run toVisual Sys.init).tx_state = .TX_VISUAL ∧
    (tick envOnReady (run toVisual Sys.init)).1.tx_state = .TX_VISUAL_ACK ∧
    (tick envOnReady (run toVisual Sys.init)).1.ack = PMT_ACK ∧
    PMT_ACK ≠ 0 ∧
    (run toCfgAckStale Sys.init).tx_state = .TX_CONFIG_ACK ∧
    (run toCfgAckStale Sys.init).ack = 5 := by decide

/-- C3 (amended): the ack register is reset to the empty value `0` when
the visual payload is emitted (on the `TX_VISUAL_ACK → TX_VISUAL_SENT`
transition) and starts out `0`, but it is not reset on entering an
ack-wait phase, so an ack-wait phase can be satisfied by a sentinel left
over from an earlier phase. -/
theorem c3_ack_reset_on_payload (s : Sys) (e : Env)
    (hsel : e.sel &&& SEL_SENSING ≠ 0) (htx : s.tx_state = .TX_VISUAL_ACK)
    (hsend : e.sending = false) (hack : s.ack = PMT_ACK) :
    (txStep e s).1.ack = 0 ∧
    (txStep e s).2 = [.sendVisualPayload s.act_tx_buf] ∧
    (txStep e s).1.tx_state = .TX_VISUAL_SENT := by
  simp only [txStep, htx]
  split_ifs <;> simp_all

/-- Witness for C3 (amended) at the reachable `TX_VISUAL_ACK` state
with the leftover sentinel in the register. -/
theorem c3_ack_reset_on_payload_witness :
    (txStep envOn (run toVisualAck Sys.init)).1.ack = 0 ∧
    (txStep envOn (run toVisualAck Sys.init)).2 =
      [.sendVisualPayload (run toVisualAck Sys.init).act_tx_buf] ∧
    (txStep envOn (run toVisualAck Sys.init)).1.tx_state = .TX_VISUAL_SENT :=
  c3_ack_reset_on_payload (run toVisualAck Sys.init) envOn
    (by decide) (by decide) (by decide) (by decide)

/-- C4 counterexample: in the reachable `TX_CONFIG_ACK` state whose ack
register holds the stray byte `5` — non-empty, but not the sentinel —
another pending byte `7` is still consumed on the next tick. -/
theorem c4_consume_nonempty_counterexample :
    (run toCfgAck5 Sys.init).tx_state = .TX_CONFIG_ACK ∧
    (run toCfgAck5 Sys.init).ack = 5 ∧
    (run toCfgAck5 Sys.init).ack ≠ 0 ∧
    readEvents (txStep envOnByte7 (run toCfgAck5 Sys.init)).2 = [7] := by decide

/-- C4 (amended): in each ack-wait state, with sensing enabled, at most
one byte is consumed per tick, and a byte is consumed exactly when the
channel has an unread byte and the ack register differs from the ACK
sentinel (not: is empty); once the register equals the sentinel no
further bytes are consumed in that phase. -/
theorem c4_ack_wait_consumption (s : Sys) (e : Env)
    (hsel : e.sel &&& SEL_SENSING ≠ 0)
    (hst : s.tx_state = .TX_CONFIG_ACK ∨ s.tx_state = .TX_VISUAL_ACK) :
    (readEvents (txStep e s).2).length ≤ 1 ∧
    (readEvents (txStep e s).2 ≠ [] ↔ e.hasChar = true ∧ s.ack ≠ PMT_ACK) ∧
    (e.hasChar = true → s.ack ≠ PMT_ACK →
      (txStep e s).1.ack = e.rx % 256 ∧
      (txStep e s).2 = [.readByte (e.rx % 256)]) := by
  rcases hst with htx | htx <;> simp only [txStep, htx] <;> split_ifs <;>
    simp_all [readEvents]

/-- Witness for C4 (amended) at the reachable stray-byte state. -/
theorem c4_ack_wait_consumption_witness :
    readEvents (txStep envOnByte7 (run toCfgAck5 Sys.init)).2 ≠ [] ∧
    (txStep envOnByte7 (run toCfgAck5 Sys.init)).1.ack = envOnByte7.rx % 256 :=
  ⟨((c4_ack_wait_consumption (run toCfgAck5 Sys.init) envOnByte7 (by decide)
      (Or.inl (by decide))).2.1).mpr ⟨by decide, by decide⟩,
    ((c4_ack_wait_consumption (run toCfgAck5 Sys.init) envOnByte7 (by decide)
      (Or.inl (by decide))).2.2 (by decide) (by decide)).1⟩

/-- C5: disabling sensing while the transmission FSM is in
`TX_VISUAL_ACK` resets it to `TX_INIT` on that tick and leaves both
`data_is_new` flags unchanged; concretely, from the reachable
mid-handshake state for slot 0 a disable tick keeps `ready[0] = 1`, and
four re-enabled ticks redo the config handshake and re-send slot 0's
stale header without any capture being launched. -/
theorem c5_stale_resend_after_reenable (s : Sys) (e : Env)
    (htx : s.tx_state = .TX_VISUAL_ACK) (hsel : e.sel &&& SEL_SENSING = 0) :
    ((tick e s).1.tx_state = .TX_INIT ∧
      (tick e s).1.buf0_new = s.buf0_new ∧
      (tick e s).1.buf1_new = s.buf1_new) ∧
    ((run (toVisualAck ++ [envOff]) Sys.init).tx_state = .TX_INIT ∧
      (run (toVisualAck ++ [envOff]) Sys.init).buf0_new = 1 ∧
      Ev.sendVisualHdr 0 ∈ runEvs resumeTicks (run (toVisualAck ++ [envOff]) Sys.init) ∧
      captureEvents (runEvs resumeTicks (run (toVisualAck ++ [envOff]) Sys.init)) = []) := by
  constructor
  · have hcam := camStep_disabled e (txStep e s).1 hsel
    have htx1 : (txStep e s).1 = { s with tx_state := .TX_INIT } := by
      simp [txStep, htx, hsel]
    refine ⟨?_, ?_, ?_⟩
    · rw [tick_fst, camStep_tx_state, htx1]
    · rw [tick_fst, hcam.2.1, htx1]
    · rw [tick_fst, hcam.2.2.1, htx1]
  · exact ⟨by decide, by decide, by decide, by decide⟩

/-- Witness for C5 at the reachable `TX_VISUAL_ACK` state under a
disable tick. -/
theorem c5_stale_resend_after_reenable_witness :
    (tick envOff (run toVisualAck Sys.init)).1.tx_state = .TX_INIT ∧
    (tick envOff (run toVisualAck Sys.init)).1.buf0_new =
      (run toVisualAck Sys.init).buf0_new :=
  ⟨(c5_stale_resend_after_reenable (run toVisualAck Sys.init) envOff
      (by decide) (by decide)).1.1,
    (c5_stale_resend_after_reenable (run toVisualAck Sys.init) envOff
      (by decide) (by decide)).1.2.1⟩

/-- C6: at both scan points the two buffers are examined in fixed order
slot 0 before slot 1: with sensing enabled, if the transmission FSM is
in `TX_VISUAL` with the channel idle and both buffers flagged new, it
selects slot 0; if the camera FSM is in `CAM_IDLE` and both buffers are
free, it captures into slot 0. -/
theorem c6_fixed_priority (s : Sys) (e : Env)
    (hsel : e.sel &&& SEL_SENSING ≠ 0) :
    (s.tx_state = .TX_VISUAL → e.sending = false →
      s.buf0_new = 1 → s.buf1_new = 1 →
      (txStep e s).1.act_tx_buf = 0 ∧ (txStep e s).2 = [.sendVisualHdr 0]) ∧
    (s.img_state = .CAM_IDLE → s.buf0_new = 0 → s.buf1_new = 0 →
      (camStep e s).1.act_img_buf = 0 ∧ (camStep e s).2 = [.launchCapture 0]) := by
  constructor
  · intro h1 h2 h3 h4
    simp only [txStep, h1]
    split_ifs <;> simp_all
  · intro h1 h2 h3
    simp only [camStep, h1]
    split_ifs <;> simp_all

/-- Witness for C6: slot 0 wins the transmission scan in the reachable
both-buffers-new `TX_VISUAL` state, and wins the capture scan in the
reachable both-buffers-free `CAM_IDLE` state after one enable tick. -/
theorem c6_fixed_priority_witness :
    ((txStep envOn (run toVisualBothReady Sys.init)).1.act_tx_buf = 0 ∧
      (txStep envOn (run toVisualBothReady Sys.init)).2 = [.sendVisualHdr 0]) ∧
    ((camStep envOn (run [envOn] Sys.init)).1.act_img_buf = 0 ∧
      (camStep envOn (run [envOn] Sys.init)).2 = [.launchCapture 0]) :=
  ⟨(c6_fixed_priority (run toVisualBothReady Sys.init) envOn (by decide)).1
      (by decide) (by decide) (by decide) (by decide),
    (c6_fixed_priority (run [envOn] Sys.init) envOn (by decide)).2
      (by decide) (by decide) (by decide)⟩

/-- C7 counterexample: in the reachable state where the camera is
`CAM_IDLE`, sensing is enabled and both buffers are flagged new at the
start of the tick, the transmission FSM (in `TX_VISUAL_SENT`, channel
idle) frees slot 0 earlier in the same tick, and the camera launches a
capture in that very tick, ending it in `CAM_CAPTURING`, not
`CAM_IDLE`. -/
theorem c7_same_tick_free_counterexample :
    (run toVisualSent Sys.init).img_state = .CAM_IDLE ∧
    (run toVisualSent Sys.init).buf0_new = 1 ∧
    (run toVisualSent Sys.init).buf1_new = 1 ∧
    envOn.sel &&& SEL_SENSING ≠ 0 ∧
    (tick envOn (run toVisualSent Sys.init)).1.img_state = .CAM_CAPTURING ∧
    captureEvents (tick envOn (run toVisualSent Sys.init)).2 = [0] := by decide

/-- C7 (amended): if the camera FSM is in `CAM_IDLE` with sensing
enabled and both buffers are still flagged new after the transmission
step of the tick (i.e. transmission did not free a buffer earlier in
the same tick), then the camera FSM is still `CAM_IDLE` after the tick
and no capture is launched. -/
theorem c7_backpressure (s : Sys) (e : Env)
    (hsel : e.sel &&& SEL_SENSING ≠ 0) (hcm : s.img_state = .CAM_IDLE)
    (h0 : (txStep e s).1.buf0_new = 1) (h1 : (txStep e s).1.buf1_new = 1) :
    (tick e s).1.img_state = .CAM_IDLE ∧ captureEvents (tick e s).2 = [] := by
  have hcm1 : (txStep e s).1.img_state = .CAM_IDLE := by
    rw [txStep_img_state, hcm]
  constructor
  · rw [tick_fst]
    simp only [camStep, hcm1]
    split_ifs <;> simp_all
  · rw [tick_snd, captureEvents, List.filterMap_append]
    have hc : (camStep e (txStep e s).1).2 = [] := by
      simp only [camStep, hcm1]
      split_ifs <;> simp_all
    rw [hc]
    have ht := captureEvents_txStep e s
    rw [captureEvents] at ht
    simp [ht]

/-- Witness for C7 (amended) at the reachable `TX_VISUAL_ACK`
both-buffers-new state: transmission sends the payload that tick but
frees nothing, and the camera holds in `CAM_IDLE`. -/
theorem c7_backpressure_witness :
    (tick envOn (run toVisualAck Sys.init)).1.img_state = .CAM_IDLE ∧
    captureEvents (tick envOn (run toVisualAck Sys.init)).2 = [] :=
  c7_backpressure (run toVisualAck Sys.init) envOn
    (by decide) (by decide) (by decide) (by decide)

/-- C8 counterexample: an enable period of two ticks with the channel
busy, ended by a disable, emits the config payload zero times, not
exactly once. -/
theorem c8_no_config_counterexample :
    envOn.sel &&& SEL_SENSING ≠ 0 ∧
    envOnBusy.sel &&& SEL_SENSING ≠ 0 ∧
    envOff.sel &&& SEL_SENSING = 0 ∧
    (runEvs [envOn, envOnBusy, envOff] Sys.init).count Ev.sendConfigPayload = 0 := by
  decide

/-- C8 (amended): over any run whose ticks all have sensing enabled,
the config payload is emitted at most once, and never once the FSM is
in the visual-send loop; each emission happens only from
`TX_CONFIG_ACK` with the channel idle and the ack register equal to the
sentinel, and lands the FSM in the visual-send loop. -/
theorem c8_config_at_most_once (es : List Env) (s : Sys)
    (h : ∀ e ∈ es, e.sel &&& SEL_SENSING ≠ 0) :
    (runEvs es s).count Ev.sendConfigPayload ≤ 1 ∧
    (visualLoop s.tx_state → (runEvs es s).count Ev.sendConfigPayload = 0) ∧
    (∀ (e : Env) (t : Sys), Ev.sendConfigPayload ∈ (txStep e t).2 →
      e.sending = false ∧ t.ack = PMT_ACK ∧ t.tx_state = .TX_CONFIG_ACK ∧
      visualLoop (txStep e t).1.tx_state) := by
  refine ⟨cfg_count_le_one es s h, fun hv => cfg_count_zero es s h hv, ?_⟩
  intro e t hmem
  obtain ⟨ht, hsnd, ha, hn, -⟩ := cfgPayload_src e t hmem
  exact ⟨hsnd, ha, ht, Or.inl hn⟩

/-- Witness for C8 (amended): the six-tick enabled run to
`TX_VISUAL_SENT` emits the config payload exactly once, and a run of
four enabled ticks from the visual-loop state emits none. -/
theorem c8_config_at_most_once_witness :
    (runEvs toVisualSent Sys.init).count Ev.sendConfigPayload = 1 ∧
    (runEvs toVisualSent Sys.init).count Ev.sendConfigPayload ≤ 1 ∧
    (runEvs resumeTicks (run toVisualAck Sys.init)).count Ev.sendConfigPayload = 0 :=
  ⟨by decide,
    (c8_config_at_most_once toVisualSent Sys.init (by decide)).1,
    (c8_config_at_most_once resumeTicks (run toVisualAck Sys.init) (by decide)).2.1
      (Or.inr (Or.inl (by decide)))⟩

/-- C9: in every reachable state both active buffer indices are at most
1, so `img_bufs[act_tx_buf]` and `img_bufs[act_img_buf]` always index
one of the two existing buffers. -/
theorem c9_indices_in_range (s : Sys) (hs : Reachable s) :
    s.act_tx_buf ≤ 1 ∧ s.act_img_buf ≤ 1 :=
  ⟨(inv_reachable hs).1, (inv_reachable hs).2.1⟩

/-- Witness for C9 at the reachable state whose send slot is 0 and
whose capture slot is 1. -/
theorem c9_indices_in_range_witness :
    (run toAckWhileCapturing Sys.init).act_tx_buf ≤ 1 ∧
    (run toAckWhileCapturing Sys.init).act_img_buf ≤ 1 :=
  c9_indices_in_range (run toAckWhileCapturing Sys.init)
    (reachable_run toAckWhileCapturing)

/-- C10: in every reachable state where the camera FSM is capturing and
the transmission FSM is past header-send (`TX_VISUAL_ACK` or
`TX_VISUAL_SENT`), the capture slot differs from the send slot: the
capture slot's flag is `0` while the send slot's flag is `1`. -/
theorem c10_disjoint_active_buffers (s : Sys) (hs : Reachable s)
    (hc : s.img_state = .CAM_CAPTURING)
    (ht : s.tx_state = .TX_VISUAL_ACK ∨ s.tx_state = .TX_VISUAL_SENT) :
    s.act_img_buf ≠ s.act_tx_buf := by
  obtain ⟨-, -, h3, h4⟩ := inv_reachable hs
  intro heq
  have h0 := h3 hc
  have h1 := h4 ht
  rw [heq] at h0
  omega

/-- Witness for C10 at the reachable state that is mid-capture of slot
1 while slot 0 is mid-send. -/
theorem c10_disjoint_active_buffers_witness :
    (run toAckWhileCapturing Sys.init).act_img_buf ≠
      (run toAckWhileCapturing Sys.init).act_tx_buf :=
  c10_disjoint_active_buffers (run toAckWhileCapturing Sys.init)
    (reachable_run toAckWhileCapturing) (by decide) (Or.inl (by decide))

end Puck
